import Mathlib

/-!
Shallow embedding of the render-graph core of the `modula` engine
(`crates/modula_render/src/render_target.rs` and
`crates/modula_render/src/sequence.rs`), together with theorems settling
the specification claims about it.

Modelling conventions:
* `wgpu` machine types are modelled structurally: texture usage bitflags as
  `Nat` (bitwise or), texture formats as a small closed inductive,
  `f64`/`f32` clear values as opaque `Int` codes (the code only stores and
  copies them, never computes with them).
* Rust panics (`expect` / `panic!`) are modelled by `Option`-valued
  functions returning `none`.
* GPU texture creation is modelled by recording the descriptor that
  `Device::create_texture` would receive; `apply_changes` additionally
  returns the list of created textures tagged with the branch (axis) that
  created them, so recreation counts are observable.
-/

namespace Modula

/-- Texture formats used by the embedded code (a closed sample of `wgpu::TextureFormat`). -/
inductive TextureFormat where
  | Rgba8UnormSrgb
  | Bgra8UnormSrgb
  | Depth24PlusStencil8
  | Depth32Float
  deriving DecidableEq

/-- `wgpu::TextureUsages` bitflags, modelled as a natural number. -/
abbrev TextureUsages := Nat

/-- `TextureUsages::RENDER_ATTACHMENT` (bit 4 in wgpu). -/
def RENDER_ATTACHMENT : TextureUsages := 16

/-- `wgpu::Color`; the four channel values are opaque codes (the engine only
stores and compares them, never computes with them). -/
structure Color where
  r : Int
  g : Int
  b : Int
  a : Int
  deriving DecidableEq

/-- `wgpu::Color::BLACK`. -/
def blackColor : Color := { r := 0, g := 0, b := 0, a := 1 }

/-- `RenderTargetDepthStencilConfig` from `render_target.rs`. -/
structure RenderTargetDepthStencilConfig where
  clear_depth : Int
  clear_stencil : Nat
  usages : TextureUsages
  format : TextureFormat
  deriving DecidableEq

/-- `Default for RenderTargetDepthStencilConfig`. -/
def defaultDepthStencilConfig : RenderTargetDepthStencilConfig :=
  { clear_depth := 1
    clear_stencil := 0
    usages := RENDER_ATTACHMENT
    format := TextureFormat.Depth24PlusStencil8 }

/-- `RenderTargetMultisampleConfig` from `render_target.rs`. -/
structure RenderTargetMultisampleConfig where
  sample_count : Nat
  deriving DecidableEq

/-- `Default for RenderTargetMultisampleConfig`. -/
def defaultMultisampleConfig : RenderTargetMultisampleConfig := { sample_count := 4 }

/-- `RenderTargetColorConfig` from `render_target.rs`. -/
structure RenderTargetColorConfig where
  clear_color : Color
  usages : TextureUsages
  format : TextureFormat
  deriving DecidableEq

/-- `Default for RenderTargetColorConfig`. -/
def defaultColorConfig : RenderTargetColorConfig :=
  { clear_color := blackColor
    usages := RENDER_ATTACHMENT
    format := TextureFormat.Rgba8UnormSrgb }

/-- `RenderTargetConfig` from `render_target.rs`. -/
structure RenderTargetConfig where
  size : Nat × Nat
  multisample_config : Option RenderTargetMultisampleConfig
  depth_stencil_config : Option RenderTargetDepthStencilConfig
  color_config : Option RenderTargetColorConfig
  deriving DecidableEq

/-- `Default for RenderTargetConfig`. -/
def defaultConfig : RenderTargetConfig :=
  { size := (1, 1)
    multisample_config := none
    depth_stencil_config := some defaultDepthStencilConfig
    color_config := some defaultColorConfig }

/-- `wgpu::TextureDescriptor`, restricted to the fields the embedded code
reads or writes (`label`, `mip_level_count`, `dimension` and `view_formats`
are constant in the source). -/
structure TextureDescriptor where
  size : Nat × Nat
  sample_count : Nat
  format : TextureFormat
  usage : TextureUsages
  deriving DecidableEq

/-- `InnerTexture` from `render_target.rs`: an engine-owned texture
(recorded by its creation descriptor) or an adopted platform surface texture
(recorded by its size). -/
inductive InnerTexture where
  | Normal (desc : TextureDescriptor)
  | Surface (size : Nat × Nat)
  deriving DecidableEq

/-- `RenderTargetChanges` from `render_target.rs`. -/
structure RenderTargetChanges where
  color_changed : Bool
  depth_stencil_changed : Bool
  multisample_changed : Bool
  deriving DecidableEq

/-- Which `create_texture` call site inside `apply_changes` created a
texture; used to tag the list of created textures. -/
inductive Axis where
  | color
  | multisample
  | depthStencil
  deriving DecidableEq

/-- `RenderTarget` from `render_target.rs`.  `TextureWithView` is collapsed
to its `InnerTexture` (the view is always derived from the texture with a
default view descriptor and carries no extra state). -/
structure RenderTarget where
  current_config : Option RenderTargetConfig
  scheduled_config : Option RenderTargetConfig
  main_texture : Option InnerTexture
  multisampled_texture : Option InnerTexture
  depth_stencil_texture : Option InnerTexture
  resolve_next : Bool
  clear_next : Bool
  clear_next_depth_stencil : Bool
  deriving DecidableEq

/-- `RenderTarget::new`. -/
def RenderTarget.new (config : RenderTargetConfig) : RenderTarget :=
  { current_config := none
    scheduled_config := some config
    main_texture := none
    multisampled_texture := none
    depth_stencil_texture := none
    resolve_next := false
    clear_next := false
    clear_next_depth_stencil := false }

/-- `RenderTarget::current_config`: `self.current_config.as_ref().or_else(|| self.scheduled_config.as_ref()).expect(..)`.
`none` models the `expect` panic. -/
def RenderTarget.currentConfig (rt : RenderTarget) : Option RenderTargetConfig :=
  rt.current_config.orElse (fun _ => rt.scheduled_config)

/-- `RenderTarget::is_surface`. -/
def RenderTarget.is_surface (rt : RenderTarget) : Bool :=
  match rt.main_texture with
  | some (InnerTexture.Normal _) => false
  | some (InnerTexture.Surface _) => true
  | none => false

/-- `RenderTarget::scheduled_config_mut`: when no change is scheduled, clone
the current config into the scheduled slot first.  `none` models the panic of
the inner `current_config()` call when both slots are empty. -/
def RenderTarget.ensureScheduled (rt : RenderTarget) : Option RenderTarget :=
  match rt.scheduled_config with
  | some _ => some rt
  | none =>
    match rt.currentConfig with
    | none => none
    | some cfg => some { rt with scheduled_config := some cfg }

/-- `RenderTarget::size`. -/
def RenderTarget.size (rt : RenderTarget) : Option (Nat × Nat) :=
  rt.currentConfig.map (fun c => c.size)

/-- `RenderTarget::resize`. -/
def RenderTarget.resize (rt : RenderTarget) (size : Nat × Nat) : Option RenderTarget :=
  rt.ensureScheduled.map fun rt1 =>
    { rt1 with scheduled_config := rt1.scheduled_config.map (fun c => { c with size := size }) }

/-- `RenderTarget::set_clear_color`. -/
def RenderTarget.set_clear_color (rt : RenderTarget) (color : Color) : Option RenderTarget :=
  rt.ensureScheduled.map fun rt1 =>
    { rt1 with
      scheduled_config := rt1.scheduled_config.map (fun c =>
        { c with color_config := c.color_config.map (fun cc => { cc with clear_color := color }) }) }

/-- `RenderTarget::schedule_clear_color`. -/
def RenderTarget.schedule_clear_color (rt : RenderTarget) : RenderTarget :=
  { rt with clear_next := true }

/-- `RenderTarget::schedule_clear_depth_stencil`. -/
def RenderTarget.schedule_clear_depth_stencil (rt : RenderTarget) : RenderTarget :=
  { rt with clear_next_depth_stencil := true }

/-- `RenderTarget::schedule_resolve`. -/
def RenderTarget.schedule_resolve (rt : RenderTarget) : RenderTarget :=
  { rt with resolve_next := true }

/-- The free function `different` from `render_target.rs`. -/
def different {α β : Type} [DecidableEq β] (a b : Option α) (val : α → β) : Bool :=
  if a.isNone && b.isNone then false
  else decide (a.map val ≠ b.map val)

/-- `RenderTarget::changes`. -/
def RenderTarget.changes (rt : RenderTarget) : RenderTargetChanges :=
  match rt.current_config, rt.scheduled_config with
  | none, _ =>
    { color_changed := true, depth_stencil_changed := true, multisample_changed := true }
  | some _, none =>
    { color_changed := false, depth_stencil_changed := false, multisample_changed := false }
  | some current, some scheduled =>
    let resized : Bool := decide (current.size ≠ scheduled.size)
    { color_changed :=
        resized || different current.color_config scheduled.color_config (fun c => c.usages)
      depth_stencil_changed :=
        resized || different current.depth_stencil_config scheduled.depth_stencil_config
          (fun c => (c.usages, c.format))
      multisample_changed :=
        resized || decide (current.multisample_config ≠ scheduled.multisample_config) }

/-- The initial shared `TextureDescriptor` built at the top of
`apply_changes` (size from the freshly taken current config, everything else
defaulted). -/
def baseDesc (cfg : RenderTargetConfig) : TextureDescriptor :=
  { size := cfg.size
    sample_count := 1
    format := TextureFormat.Rgba8UnormSrgb
    usage := RENDER_ATTACHMENT }

/-- `self.current_config = self.scheduled_config.take()` at the top of
`apply_changes`. -/
def RenderTarget.takeScheduled (rt : RenderTarget) : RenderTarget :=
  { rt with current_config := rt.scheduled_config, scheduled_config := none }

/-- The `if changes.color_changed { .. }` branch of `apply_changes` (after
the surface check): recreate the main texture from the color config,
mutating the shared descriptor's usage and format. -/
def colorStep (colorChanged : Bool) (cfg : RenderTargetConfig) (rt : RenderTarget)
    (desc : TextureDescriptor) :
    RenderTarget × TextureDescriptor × List (Axis × TextureDescriptor) :=
  if colorChanged then
    match cfg.color_config with
    | some c =>
      let d := { desc with usage := Nat.lor c.usages RENDER_ATTACHMENT, format := c.format }
      ({ rt with main_texture := some (InnerTexture.Normal d) }, d, [(Axis.color, d)])
    | none => ({ rt with main_texture := none }, desc, [])
  else (rt, desc, [])

/-- The `if changes.multisample_changed { .. }` branch of `apply_changes`:
format is left as the color branch set it, usage reset to
`RENDER_ATTACHMENT`, sample count overridden. -/
def multisampleStep (msChanged : Bool) (cfg : RenderTargetConfig) (rt : RenderTarget)
    (desc : TextureDescriptor) :
    RenderTarget × TextureDescriptor × List (Axis × TextureDescriptor) :=
  if msChanged then
    match cfg.multisample_config with
    | some c =>
      let d := { desc with usage := RENDER_ATTACHMENT, sample_count := c.sample_count }
      ({ rt with multisampled_texture := some (InnerTexture.Normal d) }, d,
        [(Axis.multisample, d)])
    | none => ({ rt with multisampled_texture := none }, desc, [])
  else (rt, desc, [])

/-- The `if changes.depth_stencil_changed { .. }` branch of `apply_changes`:
sample count reset to 1, usage and format overridden from the depth/stencil
config. -/
def depthStencilStep (dsChanged : Bool) (cfg : RenderTargetConfig) (rt : RenderTarget)
    (desc : TextureDescriptor) : RenderTarget × List (Axis × TextureDescriptor) :=
  if dsChanged then
    match cfg.depth_stencil_config with
    | some c =>
      let d := { desc with
                 sample_count := 1
                 usage := Nat.lor c.usages RENDER_ATTACHMENT
                 format := c.format }
      ({ rt with depth_stencil_texture := some (InnerTexture.Normal d) },
        [(Axis.depthStencil, d)])
    | none => ({ rt with depth_stencil_texture := none }, [])
  else (rt, [])

/-- The three texture-recreation branches of `apply_changes` in their fixed
source order (color, then multisample, then depth-stencil), threading the
shared mutable descriptor through. -/
def applyBody (changes : RenderTargetChanges) (cfg : RenderTargetConfig)
    (rt : RenderTarget) : RenderTarget × List (Axis × TextureDescriptor) :=
  let s1 := colorStep changes.color_changed cfg rt (baseDesc cfg)
  let s2 := multisampleStep changes.multisample_changed cfg s1.1 s1.2.1
  let s3 := depthStencilStep changes.depth_stencil_changed cfg s2.1 s2.2.1
  (s3.1, (s1.2.2 ++ s2.2.2) ++ s3.2)

/-- `RenderTarget::apply_changes`.  Returns the new state and the list of
textures created (tagged by branch); `none` models the panic of the
`current_config()` call that sizes the shared descriptor when both config
slots are empty. -/
def RenderTarget.apply_changes (rt0 : RenderTarget) (changes : RenderTargetChanges) :
    Option (RenderTarget × List (Axis × TextureDescriptor)) :=
  let rt := rt0.takeScheduled
  if !changes.color_changed && !changes.depth_stencil_changed && !changes.multisample_changed
  then
    some (rt, [])
  else
    match rt.currentConfig with
    | none => none
    | some cfg =>
      if changes.color_changed && rt.is_surface then
        some (rt, [])
      else
        some (applyBody changes cfg rt)

/-- `RenderTarget::apply`. -/
def RenderTarget.apply (rt : RenderTarget) :
    Option (RenderTarget × List (Axis × TextureDescriptor)) :=
  rt.apply_changes rt.changes

/-- `RenderTarget::apply_surface`: adopt the platform surface texture of the
given size as the main texture, force the scheduled size to it, compute the
change-set and force the color axis unchanged, then apply. -/
def RenderTarget.apply_surface (rt : RenderTarget) (surfaceSize : Nat × Nat) :
    Option (RenderTarget × List (Axis × TextureDescriptor)) :=
  (rt.resize surfaceSize).bind fun rt1 =>
    let rt2 := { rt1 with main_texture := some (InnerTexture.Surface surfaceSize) }
    let ch := rt2.changes
    rt2.apply_changes { ch with color_changed := false }

/-- `RenderTarget::present`: `none` models both panics (no main texture, or
a main texture that is not surface-backed); on success the main slot is left
empty. -/
def RenderTarget.present (rt : RenderTarget) : Option RenderTarget :=
  match rt.main_texture with
  | none => none
  | some (InnerTexture.Normal _) => none
  | some (InnerTexture.Surface _) => some { rt with main_texture := none }

/-- `wgpu::LoadOp`. -/
inductive LoadOp (α : Type) where
  | Clear (value : α)
  | Load
  deriving DecidableEq

/-- `wgpu::RenderPassColorAttachment`, restricted to the fields the embedded
code sets (store op is always `Store`). -/
structure ColorAttachment where
  view : InnerTexture
  resolve_target : Option InnerTexture
  load : LoadOp Color
  deriving DecidableEq

/-- `wgpu::RenderPassDepthStencilAttachment`, restricted likewise. -/
structure DepthStencilAttachment where
  view : InnerTexture
  depth_load : LoadOp Int
  stencil_load : LoadOp Nat
  deriving DecidableEq

/-- The `RenderPassDescriptor` produced by `create_pass`. -/
structure RenderPassDesc where
  color_attachment : Option ColorAttachment
  depth_stencil_attachment : Option DepthStencilAttachment
  deriving DecidableEq

/-- `RenderTarget::create_pass`.  `none` models the `expect` panics raised
while building a `Clear` load op when the corresponding sub-config (or any
effective config) is missing. -/
def RenderTarget.create_pass (rt : RenderTarget) (resolve : Bool) :
    Option (RenderTarget × RenderPassDesc) :=
  let clear := rt.clear_next
  let clearDS := rt.clear_next_depth_stencil
  let rtOut := { rt with clear_next := false, clear_next_depth_stencil := false }
  let colorAtt : Option (Option ColorAttachment) :=
    match rt.main_texture with
    | none => some none
    | some tex =>
      (if clear then
        (rt.currentConfig.bind fun c => c.color_config).map fun c =>
          LoadOp.Clear c.clear_color
       else some LoadOp.Load).map fun load =>
        some { view := tex
               resolve_target := if resolve then rt.multisampled_texture else none
               load := load }
  let dsAtt : Option (Option DepthStencilAttachment) :=
    match rt.depth_stencil_texture with
    | none => some none
    | some tex =>
      if clearDS then
        (rt.currentConfig.bind fun c => c.depth_stencil_config).map fun c =>
          some { view := tex
                 depth_load := LoadOp.Clear c.clear_depth
                 stencil_load := LoadOp.Clear c.clear_stencil }
      else
        some (some { view := tex, depth_load := LoadOp.Load, stencil_load := LoadOp.Load })
  colorAtt.bind fun ca =>
    dsAtt.map fun da =>
      (rtOut, { color_attachment := ca, depth_stencil_attachment := da })

/-- `RenderTarget::begin_pass`: read and reset `resolve_next`, then create a
pass resolving accordingly. -/
def RenderTarget.begin_pass (rt : RenderTarget) : Option (RenderTarget × RenderPassDesc) :=
  let old := rt.resolve_next
  RenderTarget.create_pass { rt with resolve_next := false } old

/-- `RenderTarget::begin_resolving_pass`. -/
def RenderTarget.begin_resolving_pass (rt : RenderTarget) :
    Option (RenderTarget × RenderPassDesc) :=
  rt.create_pass true

/-- `RenderTarget::begin_non_resolving_pass`. -/
def RenderTarget.begin_non_resolving_pass (rt : RenderTarget) :
    Option (RenderTarget × RenderPassDesc) :=
  rt.create_pass false

/-- A public mutation on a `RenderTarget`, for quantifying over call
sequences. -/
inductive RTOp where
  | setClearColor (c : Color)
  | resizeOp (s : Nat × Nat)
  | applyOp
  deriving DecidableEq

/-- Run one public operation (panics modelled as `none`). -/
def RenderTarget.runRTOp (rt : RenderTarget) : RTOp → Option RenderTarget
  | RTOp.setClearColor c => rt.set_clear_color c
  | RTOp.resizeOp s => rt.resize s
  | RTOp.applyOp => rt.apply.map Prod.fst

/-- Run a sequence of public operations from a starting state. -/
def RenderTarget.runRTOps (rt : RenderTarget) (ops : List RTOp) : Option RenderTarget :=
  List.foldlM RenderTarget.runRTOp rt ops

/-!
### Sequence compilation (`sequence.rs`)

An `OperationBuilder` is modelled by its two declaration lists plus an
opaque token identifying the operation that `finish` produces (finalizing is
pure in the embedding; the token lets us observe that each builder is
finalized exactly once and in author order).  Render-target asset ids are
modelled as `Nat`.  The `HashSet` of targets needing a resolve is modelled
as a duplicate-free list in insertion order (the set's iteration order for
the trailing resolves is unspecified in the source; insertion order is one
admissible refinement).
-/

/-- An `OperationBuilder` (its `reading`/`writing` declarations and the
operation its `finish` produces). -/
structure OperationBuilder where
  reading : List Nat
  writing : List Nat
  op : Nat
  deriving DecidableEq

/-- `SequenceOperation` from `sequence.rs`. -/
inductive SequenceOperation where
  | Run (op : Nat)
  | ResolveNext (target : Nat)
  deriving DecidableEq

/-- `HashSet::insert` on the needs-resolving set (no duplicates). -/
def hsInsert (s : List Nat) (x : Nat) : List Nat :=
  if x ∈ s then s else s ++ [x]

/-- `HashSet::remove` on the needs-resolving set. -/
def hsRemove (s : List Nat) (x : Nat) : List Nat :=
  s.erase x

/-- The `for reading in builder.reading()` loop of `Sequence::run`: emit a
`ResolveNext` for every read target currently in the set, removing it. -/
def processReads : List Nat → List Nat → List SequenceOperation × List Nat
  | [], needs => ([], needs)
  | r :: rest, needs =>
    if r ∈ needs then
      let p := processReads rest (hsRemove needs r)
      (SequenceOperation.ResolveNext r :: p.1, p.2)
    else
      processReads rest needs

/-- The needs-resolving set after one builder: reads are consumed, then all
written targets are inserted. -/
def builderNeeds (b : OperationBuilder) (needs : List Nat) : List Nat :=
  b.writing.foldl hsInsert (processReads b.reading needs).2

/-- The compilation loop of `Sequence::run` (the `UnInitialized` branch):
per builder, the resolves for its pending reads followed by its `Run` step;
after all builders, a trailing `ResolveNext` for everything still pending. -/
def compileAux : List OperationBuilder → List Nat → List SequenceOperation
  | [], needs => needs.map SequenceOperation.ResolveNext
  | b :: rest, needs =>
    (processReads b.reading needs).1 ++
      SequenceOperation.Run b.op :: compileAux rest (builderNeeds b needs)

/-- Compilation of a builder list into a step list, starting from the empty
needs-resolving set. -/
def Sequence.compile (builders : List OperationBuilder) : List SequenceOperation :=
  compileAux builders []

/-- `InnerSequence` from `sequence.rs`. -/
inductive InnerSequence where
  | Ready (ops : List SequenceOperation)
  | UnInitialized (builders : List OperationBuilder)
  deriving DecidableEq

/-- One call of `Sequence::run`, restricted to its effect on the sequence
itself: compile on first execution, then execute the cached step list
(returned as the second component) without modifying it. -/
def Sequence.runStep : InnerSequence → InnerSequence × List SequenceOperation
  | InnerSequence.UnInitialized bs =>
    (InnerSequence.Ready (Sequence.compile bs), Sequence.compile bs)
  | InnerSequence.Ready ops => (InnerSequence.Ready ops, ops)

/-- The sequence state after `n` calls of `Sequence::run`. -/
def Sequence.runN : Nat → InnerSequence → InnerSequence
  | 0, s => s
  | n + 1, s => Sequence.runN n (Sequence.runStep s).1

/-- The operations finalized and run by a step list, in order. -/
def runOps (steps : List SequenceOperation) : List Nat :=
  steps.filterMap fun s =>
    match s with
    | SequenceOperation.Run o => some o
    | SequenceOperation.ResolveNext _ => none

/-- The needs-resolving set left after processing a whole builder list. -/
def needsAfter : List OperationBuilder → List Nat → List Nat
  | [], needs => needs
  | b :: rest, needs => needsAfter rest (builderNeeds b needs)

/-!
### Helper lemmas about sequence compilation
-/

theorem runOps_cons_run (o : Nat) (l : List SequenceOperation) :
    runOps (SequenceOperation.Run o :: l) = o :: runOps l := rfl

theorem runOps_cons_resolve (t : Nat) (l : List SequenceOperation) :
    runOps (SequenceOperation.ResolveNext t :: l) = runOps l := rfl

theorem runOps_append (l1 l2 : List SequenceOperation) :
    runOps (l1 ++ l2) = runOps l1 ++ runOps l2 := by
  simp [runOps, List.filterMap_append]

theorem runOps_map_resolve (l : List Nat) :
    runOps (l.map SequenceOperation.ResolveNext) = [] := by
  induction l with
  | nil => rfl
  | cons x xs ih => simpa [runOps_cons_resolve] using ih

theorem runOps_processReads (reads : List Nat) :
    ∀ needs, runOps (processReads reads needs).1 = [] := by
  induction reads with
  | nil => intro needs; rfl
  | cons r rest ih =>
    intro needs
    by_cases h : r ∈ needs
    · simp [processReads, h, runOps_cons_resolve, ih]
    · simp [processReads, h, ih]

theorem runOps_compileAux (bs : List OperationBuilder) :
    ∀ needs, runOps (compileAux bs needs) = bs.map (fun b => b.op) := by
  induction bs with
  | nil => intro needs; simp [compileAux, runOps_map_resolve]
  | cons b rest ih =>
    intro needs
    simp [compileAux, runOps_append, runOps_processReads, runOps_cons_run, ih]

theorem compileAux_trailing (bs : List OperationBuilder) :
    ∀ needs, ∃ pre, compileAux bs needs =
      pre ++ (needsAfter bs needs).map SequenceOperation.ResolveNext := by
  induction bs with
  | nil => intro needs; exact ⟨[], by simp [compileAux, needsAfter]⟩
  | cons b rest ih =>
    intro needs
    obtain ⟨pre, hp⟩ := ih (builderNeeds b needs)
    refine ⟨(processReads b.reading needs).1 ++ SequenceOperation.Run b.op :: pre, ?_⟩
    simp [compileAux, needsAfter, hp]

/-!
### Concrete operation builders for the resolve-insertion examples
-/

/-- The render target written and read in the examples. -/
def targetT : Nat := 0

/-- A builder writing `targetT` (operation token 10). -/
def builderW : OperationBuilder := { reading := [], writing := [targetT], op := 10 }

/-- A builder reading `targetT` (operation token 11). -/
def builderR : OperationBuilder := { reading := [targetT], writing := [], op := 11 }

/-- A second builder writing `targetT` (operation token 12). -/
def builderW2 : OperationBuilder := { reading := [], writing := [targetT], op := 12 }

/-- Claim C1: sequence compilation follows the single-pass resolve-insertion
algorithm.  Operation order is never changed (the `Run` steps of the
compiled list are exactly the builders' operations in author order); a
trailing `ResolveNext` is emitted for every id still in the needs-resolving
set; and on the three example sequences the compiled step lists are exactly
as the claim states, with exactly one `ResolveNext(T)` for the repeated
write, immediately before `Run(R)`. -/
theorem claim_C1_resolve_insertion :
    (∀ bs : List OperationBuilder, runOps (Sequence.compile bs) = bs.map (fun b => b.op)) ∧
    (∀ bs : List OperationBuilder, ∃ pre, Sequence.compile bs =
      pre ++ (needsAfter bs []).map SequenceOperation.ResolveNext) ∧
    Sequence.compile [builderW, builderR] =
      [SequenceOperation.Run builderW.op, SequenceOperation.ResolveNext targetT,
        SequenceOperation.Run builderR.op] ∧
    Sequence.compile [builderW] =
      [SequenceOperation.Run builderW.op, SequenceOperation.ResolveNext targetT] ∧
    Sequence.compile [builderW, builderW2, builderR] =
      [SequenceOperation.Run builderW.op, SequenceOperation.Run builderW2.op,
        SequenceOperation.ResolveNext targetT, SequenceOperation.Run builderR.op] ∧
    (Sequence.compile [builderW, builderW2, builderR]).count
      (SequenceOperation.ResolveNext targetT) = 1 := by
  refine ⟨fun bs => runOps_compileAux bs [], fun bs => compileAux_trailing bs [],
    ?_, ?_, ?_, ?_⟩ <;> decide

/-- Claim C8: a sequence transitions exactly once, on its first execution,
from `UnInitialized(builders)` to `Ready(compile builders)`; every later run
executes the cached step list unchanged; and the `Run` steps of the compiled
list are exactly one finalized operation per builder, in order (each builder
is finalized exactly once, during compilation). -/
theorem claim_C8_compile_once :
    (∀ bs, Sequence.runStep (InnerSequence.UnInitialized bs) =
      (InnerSequence.Ready (Sequence.compile bs), Sequence.compile bs)) ∧
    (∀ ops, Sequence.runStep (InnerSequence.Ready ops) = (InnerSequence.Ready ops, ops)) ∧
    (∀ bs n, Sequence.runN (n + 1) (InnerSequence.UnInitialized bs) =
      InnerSequence.Ready (Sequence.compile bs)) ∧
    (∀ bs, runOps (Sequence.compile bs) = bs.map (fun b => b.op)) := by
  have hready : ∀ m ops, Sequence.runN m (InnerSequence.Ready ops) = InnerSequence.Ready ops := by
    intro m
    induction m with
    | zero => intro ops; rfl
    | succ k ih => intro ops; simpa [Sequence.runN, Sequence.runStep] using ih ops
  refine ⟨fun bs => rfl, fun ops => rfl, ?_, fun bs => runOps_compileAux bs []⟩
  intro bs n
  simp [Sequence.runN, Sequence.runStep, hready]

/-- Claim C2 (code bug): starting from `RenderTarget::new(config)`, two
`apply` calls with no intervening scheduled change leave BOTH `current_config`
and `scheduled_config` empty (the second `apply` executes
`current_config = scheduled_config.take()` with an empty `scheduled_config`),
so `current_config()` (modelled by `currentConfig`) hits its
`expect("No current config, this should not happen")` panic, contradicting
the claim that at least one of the two is always `Some`. -/
theorem claim_C2_double_apply_loses_config :
    (RenderTarget.runRTOps (RenderTarget.new defaultConfig) [RTOp.applyOp, RTOp.applyOp]).map
      (fun rt => (rt.current_config, rt.scheduled_config, rt.currentConfig)) =
    some (none, none, none) := by decide

/-- Claim C3 (code bug): after the state reached by `apply; apply`, the
mutators themselves panic — `set_clear_color` goes through
`scheduled_config_mut`, which clones `current_config()` while both config
slots are `None` — and `current_config()` has no value to compare with the
last scheduled config, so the claimed equality cannot hold over all
`set_clear_color`/`resize`/`apply` sequences. -/
theorem claim_C3_mutator_after_double_apply_panics :
    RenderTarget.runRTOps (RenderTarget.new defaultConfig)
      [RTOp.applyOp, RTOp.applyOp, RTOp.setClearColor { r := 1, g := 1, b := 1, a := 1 }] =
      none ∧
    (RenderTarget.runRTOps (RenderTarget.new defaultConfig) [RTOp.applyOp, RTOp.applyOp]).map
      (fun rt => (rt.scheduled_config, rt.currentConfig)) = some (none, none) := by decide

/-!
### Helper lemmas about change detection
-/

theorem different_eq_true_iff {α β : Type} [DecidableEq β] (a b : Option α) (f : α → β) :
    different a b f = true ↔ a.map f ≠ b.map f := by
  cases a <;> cases b <;> simp [different]

theorem multisample_config_eq_iff (a b : Option RenderTargetMultisampleConfig) :
    a = b ↔ a.map (fun c => c.sample_count) = b.map (fun c => c.sample_count) := by
  cases a with
  | none => cases b <;> simp
  | some x =>
    cases b with
    | none => simp
    | some y => cases x; cases y; simp

/-- Claim C4: the change-set follows the stated per-axis policy.  If no
config was ever applied, all three axes are changed.  If no scheduled change
exists, no axis is changed and `apply` recreates nothing (so a second
`apply` with no intervening scheduled change recreates zero textures).
Otherwise an axis is changed iff the size changed or its sub-config differs:
color compared by usage flags only (format ignored), depth-stencil by
(usage flags, format), multisample by sample count — with presence/absence
of a sub-config counting as a change (the `Option.map` comparison). -/
theorem claim_C4_change_detection (rt : RenderTarget) :
    (rt.current_config = none →
      rt.changes = { color_changed := true, depth_stencil_changed := true,
                     multisample_changed := true }) ∧
    (∀ cur, rt.current_config = some cur → rt.scheduled_config = none →
      rt.changes = { color_changed := false, depth_stencil_changed := false,
                     multisample_changed := false } ∧
      rt.apply = some ({ rt with current_config := none, scheduled_config := none }, [])) ∧
    (∀ cur sch, rt.current_config = some cur → rt.scheduled_config = some sch →
      (rt.changes.color_changed = true ↔
        cur.size ≠ sch.size ∨
          cur.color_config.map (fun c => c.usages) ≠
            sch.color_config.map (fun c => c.usages)) ∧
      (rt.changes.depth_stencil_changed = true ↔
        cur.size ≠ sch.size ∨
          cur.depth_stencil_config.map (fun c => (c.usages, c.format)) ≠
            sch.depth_stencil_config.map (fun c => (c.usages, c.format))) ∧
      (rt.changes.multisample_changed = true ↔
        cur.size ≠ sch.size ∨
          cur.multisample_config.map (fun c => c.sample_count) ≠
            sch.multisample_config.map (fun c => c.sample_count))) := by
  refine ⟨?_, ?_, ?_⟩
  · intro h
    simp [RenderTarget.changes, h]
  · intro cur hc hs
    constructor
    · simp [RenderTarget.changes, hc, hs]
    · simp [RenderTarget.apply, RenderTarget.changes, RenderTarget.apply_changes,
        RenderTarget.takeScheduled, hc, hs]
  · intro cur sch hc hs
    have hch : rt.changes =
        { color_changed := decide (cur.size ≠ sch.size) ||
            different cur.color_config sch.color_config (fun c => c.usages)
          depth_stencil_changed := decide (cur.size ≠ sch.size) ||
            different cur.depth_stencil_config sch.depth_stencil_config
              (fun c => (c.usages, c.format))
          multisample_changed := decide (cur.size ≠ sch.size) ||
            decide (cur.multisample_config ≠ sch.multisample_config) } := by
      simp [RenderTarget.changes, hc, hs]
    rw [hch]
    refine ⟨?_, ?_, ?_⟩
    · simp [Bool.or_eq_true, decide_eq_true_eq, different_eq_true_iff]
    · simp [Bool.or_eq_true, decide_eq_true_eq, different_eq_true_iff]
    · simp [Bool.or_eq_true, decide_eq_true_eq, different_eq_true_iff]
      rw [multisample_config_eq_iff]

/-- A scheduled config differing from the current one only in the color
format (same size and usage flags). -/
def cfgFmtB : RenderTargetConfig :=
  { defaultConfig with
    color_config := some { defaultColorConfig with format := TextureFormat.Bgra8UnormSrgb } }

/-- A target whose scheduled change touches only the color format. -/
def rtC4w : RenderTarget :=
  { current_config := some defaultConfig
    scheduled_config := some cfgFmtB
    main_texture := none
    multisampled_texture := none
    depth_stencil_texture := none
    resolve_next := false
    clear_next := false
    clear_next_depth_stencil := false }

/-- Witness for C4: a pure color-format change is not detected as a color
change (format is ignored on the color axis). -/
theorem claim_C4_witness : rtC4w.changes.color_changed = false := by
  have h := (claim_C4_change_detection rtC4w).2.2 defaultConfig cfgFmtB rfl rfl
  cases hb : rtC4w.changes.color_changed
  · rfl
  · exact absurd (h.1.mp hb) (by decide)

/-- Claim C5: on a surface-backed target, a color-axis change requested
through `apply_changes` is refused: the call returns with no texture
created and every texture slot (in particular the main slot) unchanged; the
only state effect is the usual consumption of the scheduled config. -/
theorem claim_C5_surface_color_refusal (rt : RenderTarget) (ch : RenderTargetChanges)
    (hsurf : rt.is_surface = true) (hcol : ch.color_changed = true)
    (hsch : rt.scheduled_config.isSome = true) :
    rt.apply_changes ch = some (rt.takeScheduled, []) ∧
    (rt.takeScheduled).main_texture = rt.main_texture ∧
    (rt.takeScheduled).multisampled_texture = rt.multisampled_texture ∧
    (rt.takeScheduled).depth_stencil_texture = rt.depth_stencil_texture := by
  obtain ⟨cfg, hc⟩ := Option.isSome_iff_exists.mp hsch
  have hsurf1 : (rt.takeScheduled).is_surface = true := hsurf
  refine ⟨?_, rfl, rfl, rfl⟩
  simp [RenderTarget.apply_changes, RenderTarget.currentConfig, RenderTarget.takeScheduled,
    hcol, hc, hsurf1, RenderTarget.is_surface] at hsurf1 ⊢
  simp [hsurf1]

/-- The example surface-backed configs: an (800,600) target with a
depth-stencil buffer and no multisampling, and its (1024,768) resize. -/
def cfg800 : RenderTargetConfig :=
  { size := (800, 600)
    multisample_config := none
    depth_stencil_config := some defaultDepthStencilConfig
    color_config := some defaultColorConfig }

/-- `cfg800` rescheduled to (1024,768). -/
def cfg1024 : RenderTargetConfig := { cfg800 with size := (1024, 768) }

/-- A surface-backed (800,600) target with a pending (1024,768) resize. -/
def rtC5 : RenderTarget :=
  { current_config := some cfg800
    scheduled_config := some cfg1024
    main_texture := some (InnerTexture.Surface (800, 600))
    multisampled_texture := none
    depth_stencil_texture := some (InnerTexture.Normal
      { size := (800, 600), sample_count := 1,
        format := TextureFormat.Depth24PlusStencil8, usage := RENDER_ATTACHMENT })
    resolve_next := false
    clear_next := false
    clear_next_depth_stencil := false }

/-- Witness for C5: the concrete surface-backed target refuses the resize
requested through `apply` (its change-set has the color axis changed). -/
theorem claim_C5_witness :
    rtC5.apply_changes rtC5.changes = some (rtC5.takeScheduled, []) ∧
    rtC5.changes.color_changed = true :=
  ⟨(claim_C5_surface_color_refusal rtC5 rtC5.changes (by decide) (by decide) (by decide)).1,
    by decide⟩

/-- Claim C7: `present` fails (panics) iff the main slot is empty or holds a
non-surface texture; on success it empties the main slot, so a second
`present` with no intervening `apply_surface` always fails. -/
theorem claim_C7_present (rt : RenderTarget) :
    (rt.present = none ↔
      rt.main_texture = none ∨ ∃ d, rt.main_texture = some (InnerTexture.Normal d)) ∧
    (∀ rt2, rt.present = some rt2 → rt2.main_texture = none ∧ rt2.present = none) ∧
    rt.present.bind RenderTarget.present = none := by
  rcases hm : rt.main_texture with _ | tex
  · refine ⟨by simp [RenderTarget.present, hm], ?_, by simp [RenderTarget.present, hm]⟩
    intro rt2 h
    simp [RenderTarget.present, hm] at h
  · cases tex with
    | Normal d =>
      refine ⟨by simp [RenderTarget.present, hm], ?_, by simp [RenderTarget.present, hm]⟩
      intro rt2 h
      simp [RenderTarget.present, hm] at h
    | Surface s =>
      refine ⟨by simp [RenderTarget.present, hm], ?_, ?_⟩
      · intro rt2 h
        simp only [RenderTarget.present, hm, Option.some.injEq] at h
        subst h
        exact ⟨rfl, rfl⟩
      · simp [RenderTarget.present, hm]

/-- A presentable surface-backed target. -/
def rtPW : RenderTarget :=
  { current_config := some cfg800
    scheduled_config := none
    main_texture := some (InnerTexture.Surface (800, 600))
    multisampled_texture := none
    depth_stencil_texture := none
    resolve_next := false
    clear_next := false
    clear_next_depth_stencil := false }

/-- The state after presenting `rtPW`. -/
def rtPW2 : RenderTarget := { rtPW with main_texture := none }

/-- Witness for C7: presenting the concrete surface-backed target empties
the main slot and a second `present` fails. -/
theorem claim_C7_witness : rtPW2.main_texture = none ∧ rtPW2.present = none :=
  (claim_C7_present rtPW).2.1 rtPW2 (by decide)

/-!
### Helper lemmas about the recreation branches of `apply_changes`
-/

theorem colorStep_false (cfg : RenderTargetConfig) (rt : RenderTarget)
    (desc : TextureDescriptor) : colorStep false cfg rt desc = (rt, desc, []) := rfl

theorem multisampleStep_fields (b : Bool) (cfg : RenderTargetConfig) (rt : RenderTarget)
    (desc : TextureDescriptor) :
    (multisampleStep b cfg rt desc).1.main_texture = rt.main_texture ∧
    (multisampleStep b cfg rt desc).1.current_config = rt.current_config ∧
    (multisampleStep b cfg rt desc).1.scheduled_config = rt.scheduled_config ∧
    ∀ e ∈ (multisampleStep b cfg rt desc).2.2, e.1 = Axis.multisample := by
  unfold multisampleStep
  cases b
  · simp
  · cases h : cfg.multisample_config <;> simp [h]

theorem depthStencilStep_fields (b : Bool) (cfg : RenderTargetConfig) (rt : RenderTarget)
    (desc : TextureDescriptor) :
    (depthStencilStep b cfg rt desc).1.main_texture = rt.main_texture ∧
    (depthStencilStep b cfg rt desc).1.current_config = rt.current_config ∧
    (depthStencilStep b cfg rt desc).1.scheduled_config = rt.scheduled_config ∧
    ∀ e ∈ (depthStencilStep b cfg rt desc).2, e.1 = Axis.depthStencil := by
  unfold depthStencilStep
  cases b
  · simp
  · cases h : cfg.depth_stencil_config <;> simp [h]

theorem applyBody_color_false {ch : RenderTargetChanges} {cfg : RenderTargetConfig}
    {rt : RenderTarget} (hcol : ch.color_changed = false) :
    (applyBody ch cfg rt).1.main_texture = rt.main_texture ∧
    (applyBody ch cfg rt).1.current_config = rt.current_config ∧
    (applyBody ch cfg rt).1.scheduled_config = rt.scheduled_config ∧
    ∀ e ∈ (applyBody ch cfg rt).2, e.1 ≠ Axis.color := by
  unfold applyBody
  rw [hcol, colorStep_false]
  refine ⟨?_, ?_, ?_, ?_⟩
  · rw [(depthStencilStep_fields _ _ _ _).1, (multisampleStep_fields _ _ _ _).1]
  · rw [(depthStencilStep_fields _ _ _ _).2.1, (multisampleStep_fields _ _ _ _).2.1]
  · rw [(depthStencilStep_fields _ _ _ _).2.2.1, (multisampleStep_fields _ _ _ _).2.2.1]
  · intro e he
    rcases List.mem_append.mp he with h1 | h2
    · rcases List.mem_append.mp h1 with h0 | hm
      · simp at h0
      · have hax := (multisampleStep_fields _ _ _ _).2.2.2 e hm
        simp [hax]
    · have hax := (depthStencilStep_fields _ _ _ _).2.2.2 e h2
      simp [hax]

theorem ensureScheduled_eq_some {rt rt0 : RenderTarget}
    (h : rt.ensureScheduled = some rt0) :
    rt0.scheduled_config.isSome = true ∧ rt0.main_texture = rt.main_texture := by
  unfold RenderTarget.ensureScheduled at h
  split at h
  · cases h
    rename_i heq
    exact ⟨by simp [heq], rfl⟩
  · split at h
    · exact Option.noConfusion h
    · cases h
      exact ⟨rfl, rfl⟩

theorem resize_scheduled {rt rt1 : RenderTarget} {sz : Nat × Nat}
    (h : rt.resize sz = some rt1) :
    ∃ c, rt1.scheduled_config = some c ∧ c.size = sz := by
  unfold RenderTarget.resize at h
  rcases Option.map_eq_some'.mp h with ⟨rt0, h0, heq⟩
  obtain ⟨hsome, -⟩ := ensureScheduled_eq_some h0
  obtain ⟨c, hc⟩ := Option.isSome_iff_exists.mp hsome
  subst heq
  exact ⟨{ c with size := sz }, by simp [hc], rfl⟩

theorem apply_changes_color_false {rt : RenderTarget} {ch : RenderTargetChanges}
    {cfg : RenderTargetConfig}
    (hcol : ch.color_changed = false) (hsch : rt.scheduled_config = some cfg) :
    ∃ rt2 created, rt.apply_changes ch = some (rt2, created) ∧
      rt2.main_texture = rt.main_texture ∧
      rt2.current_config = some cfg ∧
      rt2.scheduled_config = none ∧
      ∀ e ∈ created, e.1 ≠ Axis.color := by
  have hcc : (rt.takeScheduled).currentConfig = some cfg := by
    simp [RenderTarget.takeScheduled, RenderTarget.currentConfig, hsch, Option.orElse]
  have hsplit :
      rt.apply_changes ch = some (rt.takeScheduled, []) ∨
      rt.apply_changes ch = some (applyBody ch cfg rt.takeScheduled) := by
    cases hds : ch.depth_stencil_changed <;> cases hms : ch.multisample_changed
    · exact Or.inl (by simp [RenderTarget.apply_changes, hcol, hds, hms])
    · exact Or.inr (by simp [RenderTarget.apply_changes, hcol, hds, hms, hcc])
    · exact Or.inr (by simp [RenderTarget.apply_changes, hcol, hds, hms, hcc])
    · exact Or.inr (by simp [RenderTarget.apply_changes, hcol, hds, hms, hcc])
  rcases hsplit with heq | heq
  · exact ⟨rt.takeScheduled, [], heq, rfl, by simp [RenderTarget.takeScheduled, hsch],
      rfl, by simp⟩
  · obtain ⟨hb1, hb2, hb3, hb4⟩ := @applyBody_color_false ch cfg rt.takeScheduled hcol
    exact ⟨(applyBody ch cfg rt.takeScheduled).1, (applyBody ch cfg rt.takeScheduled).2,
      by simpa using heq, hb1,
      by rw [hb2]; simp [RenderTarget.takeScheduled, hsch],
      by rw [hb3]; simp [RenderTarget.takeScheduled], hb4⟩

/-- The depth-stencil texture descriptor allocated for the (800,600) state. -/
def dsDesc800 : TextureDescriptor :=
  { size := (800, 600)
    sample_count := 1
    format := TextureFormat.Depth24PlusStencil8
    usage := RENDER_ATTACHMENT }

/-- The depth-stencil texture descriptor allocated after the (1024,768) resize. -/
def dsDesc1024 : TextureDescriptor := { dsDesc800 with size := (1024, 768) }

/-- The surface-backed (800,600) target produced by the first `apply_surface`. -/
def rtC6 : RenderTarget :=
  { current_config := some cfg800
    scheduled_config := none
    main_texture := some (InnerTexture.Surface (800, 600))
    multisampled_texture := none
    depth_stencil_texture := some (InnerTexture.Normal dsDesc800)
    resolve_next := false
    clear_next := false
    clear_next_depth_stencil := false }

/-- The state after `apply_surface` with a (1024,768) surface image. -/
def rtC6res : RenderTarget :=
  { rtC6 with
    current_config := some cfg1024
    main_texture := some (InnerTexture.Surface (1024, 768))
    depth_stencil_texture := some (InnerTexture.Normal dsDesc1024) }

/-- Claim C6: `apply_surface` adopts the supplied platform image as the main
texture, forces the scheduled size to the image's dimensions, and never
recreates a color texture (the color axis is forced unchanged); in the
concrete scenario, a surface-backed (800,600) target with a depth-stencil
buffer and no multisampling, given a (1024,768) image, reports size
(1024,768) and recreates only the depth-stencil texture. -/
theorem claim_C6_apply_surface :
    (∀ (rt : RenderTarget) (sz : Nat × Nat) (rt2 : RenderTarget)
        (created : List (Axis × TextureDescriptor)),
      rt.apply_surface sz = some (rt2, created) →
      rt2.main_texture = some (InnerTexture.Surface sz) ∧
      rt2.size = some sz ∧
      ∀ e ∈ created, e.1 ≠ Axis.color) ∧
    (RenderTarget.new cfg800).apply_surface (800, 600) =
      some (rtC6, [(Axis.depthStencil, dsDesc800)]) ∧
    rtC6.apply_surface (1024, 768) = some (rtC6res, [(Axis.depthStencil, dsDesc1024)]) ∧
    rtC6res.size = some (1024, 768) := by
  refine ⟨?_, by decide, by decide, by decide⟩
  intro rt sz rt2 created h
  unfold RenderTarget.apply_surface at h
  rcases Option.bind_eq_some.mp h with ⟨rt1, hres, happ⟩
  obtain ⟨c, hcsch, hcsize⟩ := resize_scheduled hres
  dsimp only at happ
  have hschm :
      ({ rt1 with main_texture := some (InnerTexture.Surface sz) } :
        RenderTarget).scheduled_config = some c := hcsch
  obtain ⟨rt2x, createdx, heq, hmain, hcur, hschn, hax⟩ :=
    @apply_changes_color_false { rt1 with main_texture := some (InnerTexture.Surface sz) }
      { ({ rt1 with main_texture := some (InnerTexture.Surface sz) } :
          RenderTarget).changes with color_changed := false } c rfl hschm
  rw [heq] at happ
  rcases Option.some.inj happ with h2
  rcases Prod.mk.injEq .. ▸ h2 with ⟨hrt2, hcreated⟩
  subst hrt2
  subst hcreated
  refine ⟨by simpa using hmain, ?_, hax⟩
  simp [RenderTarget.size, RenderTarget.currentConfig, hcur, Option.orElse, hcsize]

/-- Witness for C6: the general `apply_surface` contract applied at the
concrete (1024,768) resize of the surface-backed target. -/
theorem claim_C6_witness :
    rtC6res.main_texture = some (InnerTexture.Surface (1024, 768)) ∧
    rtC6res.size = some (1024, 768) := by
  have h := claim_C6_apply_surface.1 rtC6 (1024, 768) rtC6res
    [(Axis.depthStencil, dsDesc1024)] (by decide)
  exact ⟨h.1, h.2.1⟩

/-!
### Helper lemmas about pass creation
-/

theorem create_pass_state {rt : RenderTarget} {res : Bool} {rt2 : RenderTarget}
    {pd : RenderPassDesc} (h : rt.create_pass res = some (rt2, pd)) :
    rt2 = { rt with clear_next := false, clear_next_depth_stencil := false } := by
  dsimp only [RenderTarget.create_pass] at h
  rcases Option.bind_eq_some.mp h with ⟨ca, hca, h2⟩
  rcases Option.map_eq_some'.mp h2 with ⟨da, hda, heq⟩
  injection heq with h1 h2x
  exact h1.symm

theorem create_pass_color {rt : RenderTarget} {res : Bool} {rt2 : RenderTarget}
    {pd : RenderPassDesc} {tex : InnerTexture}
    (hm : rt.main_texture = some tex) (h : rt.create_pass res = some (rt2, pd)) :
    ∃ load, pd.color_attachment = some
        { view := tex
          resolve_target := if res then rt.multisampled_texture else none
          load := load } ∧
      (rt.clear_next = false → load = LoadOp.Load) ∧
      (∀ cfg c, rt.clear_next = true → rt.currentConfig = some cfg →
        cfg.color_config = some c → load = LoadOp.Clear c.clear_color) := by
  dsimp only [RenderTarget.create_pass] at h
  rw [hm] at h
  rcases Option.bind_eq_some.mp h with ⟨ca, hca, h2⟩
  rcases Option.map_eq_some'.mp hca with ⟨load, hload, hfa⟩
  rcases Option.map_eq_some'.mp h2 with ⟨da, hda, heq⟩
  injection heq with h1 h2x
  subst h2x
  refine ⟨load, hfa.symm, ?_, ?_⟩
  · intro hc
    rw [hc] at hload
    simpa using hload.symm
  · intro cfg c hc hcfg hcc
    rw [hc] at hload
    simp [hcfg, hcc] at hload
    exact hload.symm

theorem create_pass_ds {rt : RenderTarget} {res : Bool} {rt2 : RenderTarget}
    {pd : RenderPassDesc} {tex : InnerTexture}
    (hm : rt.depth_stencil_texture = some tex) (h : rt.create_pass res = some (rt2, pd)) :
    ∃ da, pd.depth_stencil_attachment = some da ∧ da.view = tex ∧
      (rt.clear_next_depth_stencil = false →
        da.depth_load = LoadOp.Load ∧ da.stencil_load = LoadOp.Load) ∧
      (∀ cfg dc, rt.clear_next_depth_stencil = true → rt.currentConfig = some cfg →
        cfg.depth_stencil_config = some dc →
        da.depth_load = LoadOp.Clear dc.clear_depth ∧
        da.stencil_load = LoadOp.Clear dc.clear_stencil) := by
  dsimp only [RenderTarget.create_pass] at h
  rw [hm] at h
  rcases Option.bind_eq_some.mp h with ⟨ca, hca, h2⟩
  rcases Option.map_eq_some'.mp h2 with ⟨da0, hda, heq⟩
  injection heq with h1 h2x
  subst h2x
  cases hct : rt.clear_next_depth_stencil
  · rw [hct] at hda
    simp only [Bool.false_eq_true, if_false, Option.some.injEq] at hda
    subst hda
    exact ⟨_, rfl, rfl, fun _ => ⟨rfl, rfl⟩, fun cfg dc hbad => by simp at hbad⟩
  · rw [hct] at hda
    simp only [if_true, Option.map_eq_some'] at hda
    rcases hda with ⟨dc0, hbind, hda0⟩
    subst hda0
    refine ⟨_, rfl, rfl, by simp, ?_⟩
    intro cfg dc htrue hcfg hdc
    rw [hcfg] at hbind
    simp [hdc] at hbind
    subst hbind
    exact ⟨rfl, rfl⟩

/-- The color texture allocated by the first `apply` of the default config. -/
def colorDesc1 : TextureDescriptor :=
  { size := (1, 1)
    sample_count := 1
    format := TextureFormat.Rgba8UnormSrgb
    usage := RENDER_ATTACHMENT }

/-- The depth-stencil texture allocated by the first `apply` of the default
config. -/
def dsDesc1 : TextureDescriptor :=
  { size := (1, 1)
    sample_count := 1
    format := TextureFormat.Depth24PlusStencil8
    usage := RENDER_ATTACHMENT }

/-- The applied default-config target (color + depth-stencil, no
multisampling). -/
def rtD : RenderTarget :=
  { current_config := some defaultConfig
    scheduled_config := none
    main_texture := some (InnerTexture.Normal colorDesc1)
    multisampled_texture := none
    depth_stencil_texture := some (InnerTexture.Normal dsDesc1)
    resolve_next := false
    clear_next := false
    clear_next_depth_stencil := false }

/-- The pass descriptor of the first `begin_pass` after
`schedule_clear_color` on `rtD`. -/
def pdD1 : RenderPassDesc :=
  { color_attachment := some
      { view := InnerTexture.Normal colorDesc1
        resolve_target := none
        load := LoadOp.Clear blackColor }
    depth_stencil_attachment := some
      { view := InnerTexture.Normal dsDesc1
        depth_load := LoadOp.Load
        stencil_load := LoadOp.Load } }

/-- The pass descriptor of the second consecutive `begin_pass` (no re-arm). -/
def pdD2 : RenderPassDesc :=
  { pdD1 with
    color_attachment := some
      { view := InnerTexture.Normal colorDesc1
        resolve_target := none
        load := LoadOp.Load } }

/-- Claim C9: the clear flags are single-shot, consumed and reset by the
next pass creation (through any of the three begin functions, all of which
go through `create_pass`); `begin_pass` additionally reads and resets
`resolve_next`, attaching the multisample resolve target exactly when
resolving; an armed `clear_next` yields color load `Clear(configured clear
color)` and an unarmed one yields `Load`, and `clear_next_depth_stencil`
behaves the same for the depth/stencil ops.  In the concrete scenario
(color + depth-stencil target, no multisampling), `schedule_clear_color`
followed by two consecutive `begin_pass` calls gives a `Clear` load first
and a `Load` load second. -/
theorem claim_C9_single_shot_flags :
    (∀ (rt : RenderTarget) (res : Bool) (rt2 : RenderTarget) (pd : RenderPassDesc),
      rt.create_pass res = some (rt2, pd) →
      rt2.clear_next = false ∧ rt2.clear_next_depth_stencil = false) ∧
    (∀ (rt rt2 : RenderTarget) (pd : RenderPassDesc),
      rt.begin_pass = some (rt2, pd) → rt2.resolve_next = false) ∧
    (∀ (rt rt2 : RenderTarget) (pd : RenderPassDesc) (tex : InnerTexture),
      rt.main_texture = some tex → rt.begin_pass = some (rt2, pd) →
      pd.color_attachment.map (fun a => a.resolve_target) =
        some (if rt.resolve_next then rt.multisampled_texture else none)) ∧
    (∀ (rt rt2 : RenderTarget) (pd : RenderPassDesc) (tex : InnerTexture)
        (cfg : RenderTargetConfig) (c : RenderTargetColorConfig) (res : Bool),
      rt.main_texture = some tex → rt.clear_next = true →
      rt.currentConfig = some cfg → cfg.color_config = some c →
      rt.create_pass res = some (rt2, pd) →
      pd.color_attachment.map (fun a => a.load) = some (LoadOp.Clear c.clear_color)) ∧
    (∀ (rt rt2 : RenderTarget) (pd : RenderPassDesc) (tex : InnerTexture) (res : Bool),
      rt.main_texture = some tex → rt.clear_next = false →
      rt.create_pass res = some (rt2, pd) →
      pd.color_attachment.map (fun a => a.load) = some LoadOp.Load) ∧
    (∀ (rt rt2 : RenderTarget) (pd : RenderPassDesc) (tex : InnerTexture)
        (cfg : RenderTargetConfig) (dc : RenderTargetDepthStencilConfig) (res : Bool),
      rt.depth_stencil_texture = some tex → rt.clear_next_depth_stencil = true →
      rt.currentConfig = some cfg → cfg.depth_stencil_config = some dc →
      rt.create_pass res = some (rt2, pd) →
      pd.depth_stencil_attachment.map (fun a => (a.depth_load, a.stencil_load)) =
        some (LoadOp.Clear dc.clear_depth, LoadOp.Clear dc.clear_stencil)) ∧
    (∀ (rt rt2 : RenderTarget) (pd : RenderPassDesc) (tex : InnerTexture) (res : Bool),
      rt.depth_stencil_texture = some tex → rt.clear_next_depth_stencil = false →
      rt.create_pass res = some (rt2, pd) →
      pd.depth_stencil_attachment.map (fun a => (a.depth_load, a.stencil_load)) =
        some (LoadOp.Load, LoadOp.Load)) ∧
    (((RenderTarget.new defaultConfig).apply).map Prod.fst = some rtD ∧
      (rtD.schedule_clear_color).begin_pass = some (rtD, pdD1) ∧
      rtD.begin_pass = some (rtD, pdD2)) := by
  refine ⟨?_, ?_, ?_, ?_, ?_, ?_, ?_, by decide, by decide, by decide⟩
  · intro rt res rt2 pd h
    rw [create_pass_state h]
    exact ⟨rfl, rfl⟩
  · intro rt rt2 pd h
    rw [create_pass_state h]
  · intro rt rt2 pd tex hm h
    have h2 : RenderTarget.create_pass { rt with resolve_next := false } rt.resolve_next =
        some (rt2, pd) := h
    have hm2 : ({ rt with resolve_next := false } : RenderTarget).main_texture = some tex := hm
    obtain ⟨load, hca, -, -⟩ := create_pass_color hm2 h2
    rw [hca]
    rfl
  · intro rt rt2 pd tex cfg c res hm hcl hcfg hc h
    obtain ⟨load, hca, -, harmed⟩ := create_pass_color hm h
    rw [hca, harmed cfg c hcl hcfg hc]
    rfl
  · intro rt rt2 pd tex res hm hcl h
    obtain ⟨load, hca, hun, -⟩ := create_pass_color hm h
    rw [hca, hun hcl]
    rfl
  · intro rt rt2 pd tex cfg dc res hm hcl hcfg hc h
    obtain ⟨da, hda, -, -, harmed⟩ := create_pass_ds hm h
    obtain ⟨h1, h2⟩ := harmed cfg dc hcl hcfg hc
    rw [hda]
    simp [h1, h2]
  · intro rt rt2 pd tex res hm hcl h
    obtain ⟨da, hda, -, hun, -⟩ := create_pass_ds hm h
    obtain ⟨h1, h2⟩ := hun hcl
    rw [hda]
    simp [h1, h2]

/-- Witness for C9: the flag-reset contract applied at the concrete armed
target of the scenario. -/
theorem claim_C9_witness : rtD.clear_next = false ∧ rtD.clear_next_depth_stencil = false :=
  claim_C9_single_shot_flags.1 (rtD.schedule_clear_color) false rtD pdD1 (by decide)

/-!
### The multisample-format interaction (claim C10)
-/

/-- A 4-sample config whose color format is the descriptor default
`Rgba8UnormSrgb`. -/
def cfgMS4 : RenderTargetConfig :=
  { size := (64, 64)
    multisample_config := some { sample_count := 4 }
    depth_stencil_config := none
    color_config := some defaultColorConfig }

/-- `cfgMS4` with the sample count rescheduled to 2 (color untouched). -/
def cfgMS2 : RenderTargetConfig :=
  { cfgMS4 with multisample_config := some { sample_count := 2 } }

/-- A non-surface target with only a multisample change pending. -/
def rtC10 : RenderTarget :=
  { current_config := some cfgMS4
    scheduled_config := some cfgMS2
    main_texture := some (InnerTexture.Normal
      { size := (64, 64), sample_count := 1,
        format := TextureFormat.Rgba8UnormSrgb, usage := RENDER_ATTACHMENT })
    multisampled_texture := some (InnerTexture.Normal
      { size := (64, 64), sample_count := 4,
        format := TextureFormat.Rgba8UnormSrgb, usage := RENDER_ATTACHMENT })
    depth_stencil_texture := none
    resolve_next := false
    clear_next := false
    clear_next_depth_stencil := false }

/-- Counterexample to C10 as stated: in an `apply` whose change-set has the
color axis unchanged (only the sample count changed), the recreated
multisample texture's format (the descriptor default `Rgba8UnormSrgb`) DOES
equal the configured color format — because that format happens to be
`Rgba8UnormSrgb` — so "matches the current color config's format only when
the color and multisample axes change in the same apply" is false. -/
theorem claim_C10_counterexample :
    rtC10.changes.color_changed = false ∧
    rtC10.apply.map (fun p => p.2.map fun e => (e.1, e.2.format)) =
      some [(Axis.multisample, TextureFormat.Rgba8UnormSrgb)] ∧
    cfgMS2.color_config.map (fun c => c.format) = some TextureFormat.Rgba8UnormSrgb := by
  decide

/-- Claim C10 as amended: when `apply_changes` recreates the multisample
texture in a step where the color axis is unchanged, the multisample texture
is created from the default shared descriptor with format `Rgba8UnormSrgb`
(never by reading the configured color format — so the two formats coincide
exactly when the configured color format is itself `Rgba8UnormSrgb`); when
the color and multisample axes change in the same apply (non-surface, color
config present), the multisample texture's format equals the color config's
format, because the shared descriptor's format is set by the color branch
alone. -/
theorem claim_C10_ms_default_format (rt : RenderTarget) (ch : RenderTargetChanges)
    (cfg : RenderTargetConfig) (m : RenderTargetMultisampleConfig) :
    (ch.color_changed = false → ch.multisample_changed = true →
      rt.scheduled_config = some cfg → cfg.multisample_config = some m →
      (rt.apply_changes ch).map
          (fun p => p.2.filter fun e => e.1 == Axis.multisample) =
        some [(Axis.multisample,
          { size := cfg.size, sample_count := m.sample_count,
            format := TextureFormat.Rgba8UnormSrgb, usage := RENDER_ATTACHMENT })]) ∧
    (∀ c, ch.color_changed = true → ch.multisample_changed = true →
      rt.is_surface = false →
      rt.scheduled_config = some cfg → cfg.color_config = some c →
      cfg.multisample_config = some m →
      (rt.apply_changes ch).map
          (fun p => p.2.filter fun e => e.1 == Axis.multisample) =
        some [(Axis.multisample,
          { size := cfg.size, sample_count := m.sample_count,
            format := c.format, usage := RENDER_ATTACHMENT })]) := by
  have hcc : ∀ h : rt.scheduled_config = some cfg,
      (rt.takeScheduled).currentConfig = some cfg := fun h => by
    simp [RenderTarget.takeScheduled, RenderTarget.currentConfig, h, Option.orElse]
  have hfilterds : ∀ (b : Bool) (rtx : RenderTarget) (desc : TextureDescriptor),
      (depthStencilStep b cfg rtx desc).2.filter (fun e => e.1 == Axis.multisample) = [] := by
    intro b rtx desc
    refine List.filter_eq_nil_iff.mpr ?_
    intro e he
    have hax := (depthStencilStep_fields b cfg rtx desc).2.2.2 e he
    simp [hax]
  constructor
  · intro hcol hms hsch hm
    have heq : rt.apply_changes ch = some (applyBody ch cfg rt.takeScheduled) := by
      simp [RenderTarget.apply_changes, hcol, hms, hcc hsch]
    rw [heq]
    simp only [Option.map_some', applyBody, hcol, colorStep_false]
    simp [multisampleStep, hm, hms, baseDesc, List.filter_append, hfilterds]
  · intro c hcol hms hsurf hsch hc hm
    have hsurfT : (rt.takeScheduled).is_surface = false := hsurf
    have heq : rt.apply_changes ch = some (applyBody ch cfg rt.takeScheduled) := by
      simp [RenderTarget.apply_changes, hcol, hms, hcc hsch, hsurfT]
    rw [heq]
    simp only [Option.map_some', applyBody, hcol]
    simp [colorStep, multisampleStep, hc, hm, hms, baseDesc, List.filter_append, hfilterds]

/-- Witness for C10 (amended): the default-format contract applied at the
concrete multisample-only change. -/
theorem claim_C10_witness :
    (rtC10.apply_changes rtC10.changes).map
        (fun p => p.2.filter fun e => e.1 == Axis.multisample) =
      some [(Axis.multisample,
        { size := (64, 64), sample_count := 2,
          format := TextureFormat.Rgba8UnormSrgb, usage := RENDER_ATTACHMENT })] := by
  have h := (claim_C10_ms_default_format rtC10 rtC10.changes cfgMS2 { sample_count := 2 }).1
    (by decide) (by decide) rfl rfl
  simpa [cfgMS2, cfgMS4] using h

end Modula
